import Mathlib

/-
  Shallow embedding of the VPS Memory orchestration core
  (src/orchestration.ts, class VPSMemoryOrchestrator) together with the
  data model of src/types.ts.

  Modelling conventions:
  * JS `Map<string, T>` is an association list `List (String × T)`;
    `mapGet` reads the first binding, `mapSet` replaces the first binding
    or appends a new one (JS Map keys are unique, so the first binding is
    the only one on states the system builds).
  * Timestamps (`Date.now()`, ISO strings read back with `getTime()`) are
    integers in milliseconds, passed to each operation as a `now` argument.
  * `Record<string, unknown>` state/condition maps are association lists
    `List (String × Int)`; the code never inspects the values, so an
    integer payload is a faithful data abstraction.
  * JS floating point values reachable by pattern statistics are modelled
    by `JSNum` (rationals plus NaN and the two infinities); the arithmetic
    cases the code exercises follow IEEE-754 (0/0 = NaN, x/0 = ±∞).
  * The external memory collaborator (`this.client.storeMemory`) is a
    fire-and-forget audit sink (spec §5/§6); it does not affect the
    orchestrator state and is not modelled.
  * `executePatternActions` is delegated to caller-supplied action
    executors (spec §4.4: "out of scope here"); its outcome (normal return
    or thrown error, i.e. the try/catch seam in `applyPattern`) is passed
    as the Boolean argument `execFails`.
  * The aliasing between `this.sessions` / `coordination.sessionHierarchy`
    and `this.patterns` / `coordination.globalPatterns.patterns` (the TS
    maps share object references) is reproduced by updating both maps at
    the points where the TS code writes; claims only read `sessions`,
    `agents`, `conflicts`, `patterns` and
    `coordination.conflictResolution`.
-/

namespace VPSOrch

/-- First-binding lookup in an association list (JS `Map.get`). -/
def mapGet {α : Type} : List (String × α) → String → Option α
  | [], _ => none
  | (k', v) :: rest, k => if k' = k then some v else mapGet rest k

/-- Replace the first binding or append (JS `Map.set`). -/
def mapSet {α : Type} : List (String × α) → String → α → List (String × α)
  | [], k, v => [(k, v)]
  | (k', v') :: rest, k, v =>
      if k' = k then (k, v) :: rest else (k', v') :: mapSet rest k v

/-- Remove every binding of a key (JS `Map.delete`). -/
def mapDelete {α : Type} (m : List (String × α)) (k : String) : List (String × α) :=
  m.filter (fun kv => kv.1 ≠ k)

/-- JS `x?.f || d` on an optional number: `undefined` and `0` both fall back. -/
def jsOrInt (x : Option Int) (d : Int) : Int :=
  match x with
  | none => d
  | some v => if v = 0 then d else v

/-- JS double as reachable by the pattern statistics: a rational, NaN or ±∞. -/
inductive JSNum where
  | nan : JSNum
  | posInf : JSNum
  | negInf : JSNum
  | num : ℚ → JSNum
deriving DecidableEq

/-- IEEE-754 multiplication on the modelled values. -/
def JSNum.mul : JSNum → JSNum → JSNum
  | nan, _ => nan
  | _, nan => nan
  | num a, num b => num (a * b)
  | posInf, posInf => posInf
  | posInf, negInf => negInf
  | negInf, posInf => negInf
  | negInf, negInf => posInf
  | posInf, num b => if b = 0 then nan else if 0 < b then posInf else negInf
  | num a, posInf => if a = 0 then nan else if 0 < a then posInf else negInf
  | negInf, num b => if b = 0 then nan else if 0 < b then negInf else posInf
  | num a, negInf => if a = 0 then nan else if 0 < a then negInf else posInf

/-- IEEE-754 addition on the modelled values. -/
def JSNum.add : JSNum → JSNum → JSNum
  | nan, _ => nan
  | _, nan => nan
  | num a, num b => num (a + b)
  | posInf, negInf => nan
  | negInf, posInf => nan
  | posInf, _ => posInf
  | _, posInf => posInf
  | negInf, _ => negInf
  | _, negInf => negInf

/-- IEEE-754 division on the modelled values (`0/0 = NaN`, `x/0 = ±∞`). -/
def JSNum.div : JSNum → JSNum → JSNum
  | nan, _ => nan
  | _, nan => nan
  | num a, num b =>
      if b = 0 then (if a = 0 then nan else if 0 < a then posInf else negInf)
      else num (a / b)
  | posInf, num b => if b < 0 then negInf else posInf
  | negInf, num b => if b < 0 then posInf else negInf
  | num _, posInf => num 0
  | num _, negInf => num 0
  | posInf, posInf => nan
  | posInf, negInf => nan
  | negInf, posInf => nan
  | negInf, negInf => nan

/-- Whether a JS number is a real number in the closed unit interval. -/
def JSNum.inUnitRange : JSNum → Bool
  | num q => decide (0 ≤ q ∧ q ≤ 1)
  | _ => false

inductive AgentRole where
  | orchestrator | specialist | coordinator | validator
deriving DecidableEq

inductive ConflictType where
  | memory_conflict | session_conflict | agent_conflict | pattern_conflict
deriving DecidableEq

inductive Severity where
  | low | medium | high | critical
deriving DecidableEq

inductive ConflictStatus where
  | pending | in_progress | resolved | escalated
deriving DecidableEq

inductive PatternType where
  | workflow | resolution | optimization | prediction
deriving DecidableEq

/-- types.ts `SessionContext`. -/
structure SessionContext where
  id : String
  parentSessionId : Option String
  hierarchyLevel : Int
  agentRole : AgentRole
  state : List (String × Int)
  createdAt : Int
  lastAccess : Int
  ttl : Int
  isActive : Bool
  childSessions : List String
  memoryContext : List String
deriving DecidableEq

/-- types.ts `AgentPerformance`. -/
structure AgentPerformance where
  tasksCompleted : Nat
  successRate : ℚ
  averageResponseTime : ℚ
  conflictResolutions : Nat
  patternContributions : Nat
deriving DecidableEq

/-- types.ts `AgentContext`. -/
structure AgentContext where
  id : String
  role : AgentRole
  specialization : List String
  currentSessions : List String
  lastActivity : Int
  performance : AgentPerformance
  state : List (String × Int)
deriving DecidableEq

/-- types.ts `ConflictRecord`. -/
structure ConflictRecord where
  id : String
  type : ConflictType
  severity : Severity
  description : String
  involvedMemories : List String
  involvedSessions : List String
  involvedAgents : List String
  resolutionTier : Nat
  resolutionStrategy : String
  status : ConflictStatus
  createdAt : Int
  resolvedAt : Option Int
  metadata : List (String × Int)
deriving DecidableEq

/-- types.ts `LearnedPattern`. -/
structure LearnedPattern where
  id : String
  type : PatternType
  description : String
  conditions : List (String × Int)
  actions : List (String × Int)
  confidence : ℚ
  usageCount : Nat
  successRate : JSNum
  lastApplied : Int
  applicableContexts : List String
deriving DecidableEq

structure Tier1Strategies where
  memoryDeduplication : Bool
  temporalRecency : Bool
  similarityMerging : Bool
  agentPrecedence : Bool
deriving DecidableEq

structure Tier1Thresholds where
  similarityThreshold : ℚ
  timeThreshold : ℚ
  confidenceThreshold : ℚ
deriving DecidableEq

/-- types.ts `AutoResolution` (tier-1 configuration). -/
structure AutoResolution where
  enabled : Bool
  strategies : Tier1Strategies
  thresholds : Tier1Thresholds
deriving DecidableEq

structure Tier2Strategies where
  contextualAnalysis : Bool
  votingMechanism : Bool
  expertConsensus : Bool
deriving DecidableEq

structure EscalationCriteria where
  maxMediationTime : ℚ
  complexityThreshold : ℚ
  stakeholderCount : Nat
deriving DecidableEq

/-- types.ts `AgentMediation` (tier-2 configuration). -/
structure AgentMediation where
  enabled : Bool
  mediatorAgentId : Option String
  strategies : Tier2Strategies
  escalationCriteria : EscalationCriteria
deriving DecidableEq

structure EscalationThreshold where
  criticalConflicts : Nat
  unresolvedTime : ℚ
  systemImpact : ℚ
deriving DecidableEq

/-- types.ts `HumanEscalation` (tier-3 configuration). -/
structure HumanEscalation where
  enabled : Bool
  notificationChannels : List String
  escalationThreshold : EscalationThreshold
deriving DecidableEq

/-- types.ts `ConflictResolutionState`. -/
structure ConflictResolutionState where
  tier1 : AutoResolution
  tier2 : AgentMediation
  tier3 : HumanEscalation
  activeConflicts : List ConflictRecord
  resolutionHistory : List ConflictRecord
deriving DecidableEq

/-- types.ts `LearningStrategy`. -/
structure LearningStrategy where
  type : String
  enabled : Bool
  parameters : List (String × ℚ)
  priority : Nat
deriving DecidableEq

/-- types.ts `PatternMetrics` (`performanceMetrics` of the learning context). -/
structure PatternMetrics where
  patternsLearned : Nat
  patternsApplied : Nat
  adaptationRate : ℚ
  learningEfficiency : ℚ
  lastUpdated : Int
deriving DecidableEq

/-- types.ts `PatternLearningContext`. -/
structure PatternLearningContext where
  patterns : List (String × LearnedPattern)
  learningStrategies : List LearningStrategy
  adaptationRules : List String
  performanceMetrics : PatternMetrics
deriving DecidableEq

/-- types.ts `AgentCoordination`. -/
structure AgentCoordination where
  orchestratorId : String
  activeAgents : List (String × AgentContext)
  sessionHierarchy : List (String × SessionContext)
  conflictResolution : ConflictResolutionState
  globalPatterns : PatternLearningContext
deriving DecidableEq

/-- The private state of `VPSMemoryOrchestrator`. -/
structure OState where
  sessions : List (String × SessionContext)
  agents : List (String × AgentContext)
  conflicts : List (String × ConflictRecord)
  patterns : List (String × LearnedPattern)
  coordination : AgentCoordination
deriving DecidableEq

/-- orchestration.ts `initializeCoordination` (the constructor's configuration). -/
def initializeCoordination (orchestratorId : String) (now : Int) : AgentCoordination :=
  { orchestratorId := orchestratorId
    activeAgents := []
    sessionHierarchy := []
    conflictResolution :=
      { tier1 :=
          { enabled := true
            strategies :=
              { memoryDeduplication := true, temporalRecency := true
                similarityMerging := true, agentPrecedence := true }
            thresholds :=
              { similarityThreshold := 0.85, timeThreshold := 3600
                confidenceThreshold := 0.8 } }
        tier2 :=
          { enabled := true
            mediatorAgentId := none
            strategies :=
              { contextualAnalysis := true, votingMechanism := true
                expertConsensus := true }
            escalationCriteria :=
              { maxMediationTime := 300, complexityThreshold := 0.7
                stakeholderCount := 3 } }
        tier3 :=
          { enabled := true
            notificationChannels := ["system_log", "admin_alert"]
            escalationThreshold :=
              { criticalConflicts := 5, unresolvedTime := 1800
                systemImpact := 0.8 } }
        activeConflicts := []
        resolutionHistory := [] }
    globalPatterns :=
      { patterns := []
        learningStrategies :=
          [ { type := "reinforcement", enabled := true
              parameters := [("learningRate", 0.1), ("discountFactor", 0.9)]
              priority := 1 }
          , { type := "pattern_recognition", enabled := true
              parameters := [("minPatternFrequency", 3), ("confidenceThreshold", 0.7)]
              priority := 2 }
          , { type := "anomaly_detection", enabled := true
              parameters := [("deviationThreshold", 2.0), ("windowSize", 100)]
              priority := 3 } ]
        adaptationRules := []
        performanceMetrics :=
          { patternsLearned := 0, patternsApplied := 0, adaptationRate := 0
            learningEfficiency := 0, lastUpdated := now } } }

/-- A freshly constructed orchestrator (empty stores, initial configuration). -/
def initialOState (orchestratorId : String) (now : Int) : OState :=
  { sessions := [], agents := [], conflicts := [], patterns := []
    coordination := initializeCoordination orchestratorId now }

/-- Options argument of `createSession`. -/
structure CreateOptions where
  parentSessionId : Option String
  initialState : Option (List (String × Int))
  ttl : Option Int
  specialization : Option (List String)
deriving DecidableEq

/-- orchestration.ts `createSession`; `sessionId` stands for the generated
`session-(Date.now())-(random)` token, `now` for the creation timestamp. -/
def createSession (σ : OState) (sessionId : String) (agentRole : AgentRole)
    (opts : CreateOptions) (now : Int) : SessionContext × OState :=
  let hierarchyLevel : Int :=
    match opts.parentSessionId with
    | some pid => jsOrInt ((mapGet σ.sessions pid).map SessionContext.hierarchyLevel) 0 + 1
    | none => 0
  let session : SessionContext :=
    { id := sessionId
      parentSessionId := opts.parentSessionId
      hierarchyLevel := hierarchyLevel
      agentRole := agentRole
      state := opts.initialState.getD []
      createdAt := now
      lastAccess := now
      ttl := jsOrInt opts.ttl 3600
      isActive := true
      childSessions := []
      memoryContext := [] }
  let σ1 : OState :=
    match opts.parentSessionId with
    | some pid =>
        match mapGet σ.sessions pid with
        | some parent =>
            let parent2 := { parent with childSessions := parent.childSessions ++ [sessionId] }
            { σ with sessions := mapSet σ.sessions pid parent2 }
        | none => σ
    | none => σ
  (session,
    { σ1 with
        sessions := mapSet σ1.sessions sessionId session
        coordination := { σ1.coordination with
          sessionHierarchy := mapSet σ1.coordination.sessionHierarchy sessionId session } })

/-- orchestration.ts `registerAgent`. -/
def registerAgent (σ : OState) (agentId : String) (role : AgentRole)
    (specialization : List String) (now : Int) : AgentContext × OState :=
  let agent : AgentContext :=
    { id := agentId
      role := role
      specialization := specialization
      currentSessions := []
      lastActivity := now
      performance :=
        { tasksCompleted := 0, successRate := 1, averageResponseTime := 0
          conflictResolutions := 0, patternContributions := 0 }
      state := [] }
  (agent,
    { σ with
        agents := mapSet σ.agents agentId agent
        coordination := { σ.coordination with
          activeAgents := mapSet σ.coordination.activeAgents agentId agent } })

/-- Result of a tier-1 / tier-2 resolution attempt. -/
structure TierResult where
  resolved : Bool
  strategy : String
deriving DecidableEq

/-- orchestration.ts `resolveMemoryConflict` (stub: always succeeds). -/
def resolveMemoryConflict (_conflict : ConflictRecord) (_tier1 : AutoResolution) : TierResult :=
  { resolved := true, strategy := "memory_deduplication" }

/-- orchestration.ts `resolveSessionConflict` (stub: always succeeds). -/
def resolveSessionConflict (_conflict : ConflictRecord) (_tier1 : AutoResolution) : TierResult :=
  { resolved := true, strategy := "session_hierarchy_precedence" }

/-- orchestration.ts `resolveAgentConflict` (stub: always succeeds). -/
def resolveAgentConflict (_conflict : ConflictRecord) (_tier1 : AutoResolution) : TierResult :=
  { resolved := true, strategy := "agent_precedence" }

/-- orchestration.ts `resolvePatternConflict` (stub: always succeeds). -/
def resolvePatternConflict (_conflict : ConflictRecord) (_tier1 : AutoResolution) : TierResult :=
  { resolved := true, strategy := "pattern_priority" }

structure ContextAnalysis where
  confidence : ℚ
deriving DecidableEq

structure VotingResult where
  consensus : ℚ
deriving DecidableEq

/-- orchestration.ts `performContextualAnalysis` (stub). -/
def performContextualAnalysis (_conflict : ConflictRecord) : ContextAnalysis :=
  { confidence := 0.9 }

/-- orchestration.ts `conductAgentVoting` (stub). -/
def conductAgentVoting (_conflict : ConflictRecord) : VotingResult :=
  { consensus := 0.8 }

/-- orchestration.ts `evaluatePatternMatch` (stub). -/
def evaluatePatternMatch (_conditions _context : List (String × Int)) : ℚ :=
  0.85

/-- orchestration.ts `attemptTier1Resolution`; depends only on
`this.coordination` and the conflict record. -/
def attemptTier1Resolution (coord : AgentCoordination) (conflict : ConflictRecord) : TierResult :=
  let tier1 := coord.conflictResolution.tier1
  if !tier1.enabled then
    { resolved := false, strategy := "tier1_disabled" }
  else
    match conflict.type with
    | ConflictType.memory_conflict => resolveMemoryConflict conflict tier1
    | ConflictType.session_conflict => resolveSessionConflict conflict tier1
    | ConflictType.agent_conflict => resolveAgentConflict conflict tier1
    | ConflictType.pattern_conflict => resolvePatternConflict conflict tier1

/-- orchestration.ts `attemptTier2Resolution`; depends on `this.coordination`,
`this.agents` and the conflict record. -/
def attemptTier2Resolution (coord : AgentCoordination)
    (agents : List (String × AgentContext)) (conflict : ConflictRecord) : TierResult :=
  let tier2 := coord.conflictResolution.tier2
  if !tier2.enabled then
    { resolved := false, strategy := "tier2_disabled" }
  else
    let mediators := (agents.map Prod.snd).filter
      (fun agent => agent.role = AgentRole.coordinator ∨ agent.role = AgentRole.orchestrator)
    if mediators.length = 0 then
      { resolved := false, strategy := "no_mediators_available" }
    else if tier2.strategies.contextualAnalysis
        && decide ((performContextualAnalysis conflict).confidence > (0.8 : ℚ)) then
      { resolved := true, strategy := "contextual_analysis" }
    else if tier2.strategies.votingMechanism
        && decide (conflict.involvedAgents.length > 1)
        && decide ((conductAgentVoting conflict).consensus > (0.7 : ℚ)) then
      { resolved := true, strategy := "agent_voting" }
    else
      { resolved := false, strategy := "tier2_exhausted" }

/-- orchestration.ts `escalateToHuman` (audit emission is external; the state
change is the push onto `activeConflicts`, guarded by `tier3.enabled`). -/
def escalateToHuman (σ : OState) (conflict : ConflictRecord) : OState :=
  let tier3 := σ.coordination.conflictResolution.tier3
  if !tier3.enabled then σ
  else
    { σ with coordination := { σ.coordination with
        conflictResolution := { σ.coordination.conflictResolution with
          activeConflicts :=
            σ.coordination.conflictResolution.activeConflicts ++ [conflict] } } }

/-- Printable name of a conflict type (used in the description string). -/
def conflictTypeText : ConflictType → String
  | ConflictType.memory_conflict => "memory_conflict"
  | ConflictType.session_conflict => "session_conflict"
  | ConflictType.agent_conflict => "agent_conflict"
  | ConflictType.pattern_conflict => "pattern_conflict"

/-- The conflict record `resolveConflict` constructs before tier processing. -/
def mkConflict (conflictId : String) (conflictType : ConflictType)
    (involvedItems : List String) (severity : Severity)
    (metadata : List (String × Int)) (now : Int) : ConflictRecord :=
  { id := conflictId
    type := conflictType
    severity := severity
    description := conflictTypeText conflictType ++ " involving "
      ++ toString involvedItems.length ++ " items"
    involvedMemories := if conflictType = ConflictType.memory_conflict then involvedItems else []
    involvedSessions := if conflictType = ConflictType.session_conflict then involvedItems else []
    involvedAgents := if conflictType = ConflictType.agent_conflict then involvedItems else []
    resolutionTier := 1
    resolutionStrategy := ""
    status := ConflictStatus.pending
    createdAt := now
    resolvedAt := none
    metadata := metadata }

/-- Outcome of `resolveConflict`: the final record (the single mutated object
the TS code returns and keeps in `this.conflicts`), the successor state, and
the tiers attempted in order. -/
structure ResolveResult where
  conflict : ConflictRecord
  state : OState
  tiersAttempted : List Nat
deriving DecidableEq

/-- orchestration.ts `resolveConflict`; `conflictId` stands for the generated
`conflict-(Date.now())-(random)` token. -/
def resolveConflict (σ : OState) (conflictId : String) (conflictType : ConflictType)
    (involvedItems : List String) (severity : Severity)
    (metadata : List (String × Int)) (now : Int) : ResolveResult :=
  let conflict := mkConflict conflictId conflictType involvedItems severity metadata now
  let σ1 : OState := { σ with conflicts := mapSet σ.conflicts conflictId conflict }
  let tier1Result := attemptTier1Resolution σ1.coordination conflict
  if tier1Result.resolved then
    let c := { conflict with
      status := ConflictStatus.resolved
      resolvedAt := some now
      resolutionStrategy := tier1Result.strategy }
    { conflict := c
      state := { σ1 with conflicts := mapSet σ1.conflicts conflictId c }
      tiersAttempted := [1] }
  else
    let c2 := { conflict with resolutionTier := 2 }
    let tier2Result := attemptTier2Resolution σ1.coordination σ1.agents c2
    if tier2Result.resolved then
      let c := { c2 with
        status := ConflictStatus.resolved
        resolvedAt := some now
        resolutionStrategy := tier2Result.strategy }
      { conflict := c
        state := { σ1 with conflicts := mapSet σ1.conflicts conflictId c }
        tiersAttempted := [1, 2] }
    else
      let c3 := { c2 with resolutionTier := 3, status := ConflictStatus.escalated }
      let σ2 : OState := { σ1 with conflicts := mapSet σ1.conflicts conflictId c3 }
      { conflict := c3
        state := escalateToHuman σ2 c3
        tiersAttempted := [1, 2, 3] }

/-- orchestration.ts `learnPattern`; `patternId` stands for the generated
`pattern-(type)-(Date.now())-(random)` token. -/
def learnPattern (σ : OState) (patternId : String) (ptype : PatternType)
    (context : List (String × Int)) (action : List (String × Int))
    (applicableContexts : List String) (now : Int) : LearnedPattern × OState :=
  let pattern : LearnedPattern :=
    { id := patternId
      type := ptype
      description := "Learned pattern from context analysis"
      conditions := context
      actions := action
      confidence := 0.5
      usageCount := 0
      successRate := JSNum.num 0
      lastApplied := now
      applicableContexts := applicableContexts }
  (pattern,
    { σ with
        patterns := mapSet σ.patterns patternId pattern
        coordination := { σ.coordination with
          globalPatterns := { σ.coordination.globalPatterns with
            patterns := mapSet σ.coordination.globalPatterns.patterns patternId pattern
            performanceMetrics := { σ.coordination.globalPatterns.performanceMetrics with
              patternsLearned :=
                σ.coordination.globalPatterns.performanceMetrics.patternsLearned + 1
              lastUpdated := now } } } })

/-- orchestration.ts `applyPattern`. `execFails` is the outcome of the
caller-supplied action executor behind `executePatternActions` (spec §4.4):
`true` means the execution threw and the catch branch runs. -/
def applyPattern (σ : OState) (patternId : String)
    (currentContext : List (String × Int)) (execFails : Bool) (now : Int) :
    Bool × OState :=
  match mapGet σ.patterns patternId with
  | none => (false, σ)
  | some pattern =>
    let matchScore := evaluatePatternMatch pattern.conditions currentContext
    if matchScore < (0.7 : ℚ) then
      (false, σ)
    else if execFails then
      let p := { pattern with
        successRate := JSNum.div
          (JSNum.add
            (JSNum.mul pattern.successRate (JSNum.num ((pattern.usageCount : ℚ) - 1)))
            (JSNum.num 0))
          (JSNum.num (pattern.usageCount : ℚ)) }
      (false,
        { σ with
            patterns := mapSet σ.patterns patternId p
            coordination := { σ.coordination with
              globalPatterns := { σ.coordination.globalPatterns with
                patterns := mapSet σ.coordination.globalPatterns.patterns patternId p } } })
    else
      let newCount := pattern.usageCount + 1
      let p := { pattern with
        usageCount := newCount
        lastApplied := now
        successRate := JSNum.div
          (JSNum.add
            (JSNum.mul pattern.successRate (JSNum.num ((newCount : ℚ) - 1)))
            (JSNum.num 1))
          (JSNum.num (newCount : ℚ)) }
      (true,
        { σ with
            patterns := mapSet σ.patterns patternId p
            coordination := { σ.coordination with
              globalPatterns := { σ.coordination.globalPatterns with
                patterns := mapSet σ.coordination.globalPatterns.patterns patternId p
                performanceMetrics := { σ.coordination.globalPatterns.performanceMetrics with
                  patternsApplied :=
                    σ.coordination.globalPatterns.performanceMetrics.patternsApplied + 1 } } } })

/-- JS object spread `... parent, ... child`: the parent's keys in order with
the child's values overriding, then the child's keys absent from the parent. -/
def mergeStates (parent child : List (String × Int)) : List (String × Int) :=
  parent.map (fun kv =>
    match mapGet child kv.1 with
    | some v => (kv.1, v)
    | none => kv)
  ++ child.filter (fun kv => (mapGet parent kv.1).isNone)

/-- orchestration.ts `getSessionContext`. `fuel` bounds the parent-chain
recursion (the TS code recurses without a bound and would not terminate on a
cyclic chain; every state built by the operations has an acyclic chain, and on
such states any fuel at least the chain length gives the TS behaviour). -/
def getSessionContext : Nat → OState → String → Bool → Int → Option SessionContext × OState
  | 0, σ, _, _, _ => (none, σ)
  | fuel + 1, σ, sessionId, includeHierarchy, now =>
    match mapGet σ.sessions sessionId with
    | none => (none, σ)
    | some session =>
      let session1 := { session with lastAccess := now }
      let σ1 : OState := { σ with sessions := mapSet σ.sessions sessionId session1 }
      if now - session.createdAt > session.ttl * 1000 then
        let session2 := { session with lastAccess := now, isActive := false }
        (some session2, { σ1 with sessions := mapSet σ1.sessions sessionId session2 })
      else
        match includeHierarchy, session.parentSessionId with
        | true, some pid =>
          match getSessionContext fuel σ1 pid true now with
          | (some parentContext, σ2) =>
            let session3 :=
              { session with lastAccess := now, state := mergeStates parentContext.state session.state }
            (some session3, { σ2 with sessions := mapSet σ2.sessions sessionId session3 })
          | (none, σ2) => (some session1, σ2)
        | _, _ => (some session1, σ1)

/-- Body of the `cleanupExpiredSessions` loop over one map entry. -/
def cleanupStep (now : Int) (acc : Nat × OState) (kv : String × SessionContext) :
    Nat × OState :=
  if now - kv.2.createdAt > kv.2.ttl * 1000 then
    (acc.1 + 1,
      { acc.2 with
          sessions := mapSet acc.2.sessions kv.1 ({ kv.2 with isActive := false })
          coordination := { acc.2.coordination with
            sessionHierarchy := mapDelete acc.2.coordination.sessionHierarchy kv.1 } })
  else acc

/-- orchestration.ts `cleanupExpiredSessions` (the session-expiry sweep). -/
def cleanupExpiredSessions (σ : OState) (now : Int) : Nat × OState :=
  σ.sessions.foldl (cleanupStep now) (0, σ)

/-- One caller-visible operation of the orchestrator, as a step relation on
states. `sessionId` freshness in `create` models the generated
`session-(Date.now())-(random)` tokens, which never collide with an existing
id. -/
inductive Step : OState → OState → Prop where
  | create (σ : OState) (sessionId : String) (agentRole : AgentRole)
      (opts : CreateOptions) (now : Int)
      (fresh : mapGet σ.sessions sessionId = none) :
      Step σ (createSession σ sessionId agentRole opts now).2
  | register (σ : OState) (agentId : String) (role : AgentRole)
      (specialization : List String) (now : Int) :
      Step σ (registerAgent σ agentId role specialization now).2
  | resolve (σ : OState) (conflictId : String) (conflictType : ConflictType)
      (involvedItems : List String) (severity : Severity)
      (metadata : List (String × Int)) (now : Int) :
      Step σ (resolveConflict σ conflictId conflictType involvedItems severity metadata now).state
  | learn (σ : OState) (patternId : String) (ptype : PatternType)
      (context action : List (String × Int)) (applicableContexts : List String) (now : Int) :
      Step σ (learnPattern σ patternId ptype context action applicableContexts now).2
  | apply (σ : OState) (patternId : String) (currentContext : List (String × Int))
      (execFails : Bool) (now : Int) :
      Step σ (applyPattern σ patternId currentContext execFails now).2
  | getCtx (σ : OState) (fuel : Nat) (sessionId : String) (includeHierarchy : Bool) (now : Int) :
      Step σ (getSessionContext fuel σ sessionId includeHierarchy now).2
  | cleanup (σ : OState) (now : Int) :
      Step σ (cleanupExpiredSessions σ now).2

/-- The hierarchy relation of spec §8 between a session `s` and its parent `p`,
read off a state. -/
def hierRelated (σ : OState) (s p : String) : Bool :=
  match mapGet σ.sessions s, mapGet σ.sessions p with
  | some S, some P =>
      decide (S.parentSessionId = some p)
        && decide (S.hierarchyLevel = P.hierarchyLevel + 1)
        && decide (s ∈ P.childSessions)
  | _, _ => false

/-- Whether the session stored under `sid` exists and is inactive. -/
def sessionInactive (σ : OState) (sid : String) : Bool :=
  match mapGet σ.sessions sid with
  | some s => !s.isActive
  | none => false

/-- JS Map key uniqueness, as an invariant of the association-list rendering. -/
abbrev sessionKeysNodup (σ : OState) : Prop :=
  (σ.sessions.map Prod.fst).Nodup

/-! ### Derived notions used by the verification

`touchedOnly now s s'` describes how `getSessionContext` and the expiry sweep
may rewrite a stored session: everything except `state`, `lastAccess` and an
expiry-driven deactivation is untouched.  `preservesHier` is the weaker
relation every operation satisfies: hierarchy data survives (`childSessions`
can only gain members) and an inactive session stays inactive. -/

def touchedOnly (now : Int) (s s' : SessionContext) : Prop :=
  s'.id = s.id ∧ s'.parentSessionId = s.parentSessionId ∧
  s'.hierarchyLevel = s.hierarchyLevel ∧ s'.childSessions = s.childSessions ∧
  s'.createdAt = s.createdAt ∧ s'.ttl = s.ttl ∧
  (s'.isActive = s.isActive ∨ (s'.isActive = false ∧ now - s.createdAt > s.ttl * 1000))

def preservesHier (s s' : SessionContext) : Prop :=
  s'.parentSessionId = s.parentSessionId ∧ s'.hierarchyLevel = s.hierarchyLevel ∧
  (∀ c, c ∈ s.childSessions → c ∈ s'.childSessions) ∧
  (s.isActive = false → s'.isActive = false)

def listTouched (now : Int) (l l' : List (String × SessionContext)) : Prop :=
  ∀ x s, mapGet l x = some s → ∃ s', mapGet l' x = some s' ∧ touchedOnly now s s'

def listPreserved (l l' : List (String × SessionContext)) : Prop :=
  ∀ x s, mapGet l x = some s → ∃ s', mapGet l' x = some s' ∧ preservesHier s s'

/-- Fields of the orchestrator state other than `sessions` that
`getSessionContext` leaves untouched. -/
def sessionsOnlyDiffer (σ σ' : OState) : Prop :=
  σ'.agents = σ.agents ∧ σ'.conflicts = σ.conflicts ∧ σ'.patterns = σ.patterns ∧
  σ'.coordination = σ.coordination

/-- The per-entry rewrite the expiry sweep applies to the session list. -/
def expireEntry (now : Int) (kv : String × SessionContext) : String × SessionContext :=
  if now - kv.2.createdAt > kv.2.ttl * 1000 then (kv.1, { kv.2 with isActive := false }) else kv

/-- Value-level form of `expireEntry`. -/
def expireVal (now : Int) (s : SessionContext) : SessionContext :=
  if now - s.createdAt > s.ttl * 1000 then { s with isActive := false } else s

/-- Whether the sweep treats an entry as expired. -/
def isExpiredEntry (now : Int) (kv : String × SessionContext) : Bool :=
  decide (now - kv.2.createdAt > kv.2.ttl * 1000)

/-- The sweep's action on the session list alone. -/
def sweepSessions (now : Int) (L : List (String × SessionContext))
    (kv : String × SessionContext) : List (String × SessionContext) :=
  if now - kv.2.createdAt > kv.2.ttl * 1000 then
    mapSet L kv.1 ({ kv.2 with isActive := false })
  else L

/-- Projection used to observe an agent's accumulated task counter. -/
def agentTasks (a : AgentContext) : Nat :=
  a.performance.tasksCompleted

/-! ### Concrete states used by counterexamples and witnesses -/

def emptyOState : OState := initialOState "orchestrator-0" 0

def exOptsGhostParent : CreateOptions :=
  { parentSessionId := some "ghost", initialState := none, ttl := none, specialization := none }

def exOptsParentP : CreateOptions :=
  { parentSessionId := some "p", initialState := none, ttl := none, specialization := none }

def exInactiveParent : SessionContext :=
  { id := "p", parentSessionId := none, hierarchyLevel := 0
    agentRole := AgentRole.orchestrator, state := [], createdAt := 0, lastAccess := 0
    ttl := 3600, isActive := false, childSessions := [], memoryContext := [] }

def exInactiveParentState : OState :=
  { emptyOState with sessions := [("p", exInactiveParent)] }

def exActiveParent : SessionContext :=
  { exInactiveParent with isActive := true }

def exActiveParentState : OState :=
  { emptyOState with sessions := [("p", exActiveParent)] }

def exAgentSeasoned : AgentContext :=
  { id := "a1", role := AgentRole.orchestrator, specialization := ["db"]
    currentSessions := [], lastActivity := 0
    performance :=
      { tasksCompleted := 5, successRate := 0.75, averageResponseTime := 120
        conflictResolutions := 2, patternContributions := 1 }
    state := [] }

def exAgentState : OState :=
  { emptyOState with agents := [("a1", exAgentSeasoned)] }

/-- A coordination state whose tier-1 resolution is disabled (and with no
registered mediator agents), so that a conflict reaches tier 3. -/
def exEscalationState : OState :=
  { emptyOState with
      coordination := { emptyOState.coordination with
        conflictResolution := { emptyOState.coordination.conflictResolution with
          tier1 := { emptyOState.coordination.conflictResolution.tier1 with
            enabled := false } } } }

def exRootA1 : SessionContext :=
  { id := "root", parentSessionId := none, hierarchyLevel := 0
    agentRole := AgentRole.orchestrator, state := [("a", 1)], createdAt := 0, lastAccess := 0
    ttl := 3600, isActive := true, childSessions := ["child"], memoryContext := [] }

def exChildB2 : SessionContext :=
  { id := "child", parentSessionId := some "root", hierarchyLevel := 1
    agentRole := AgentRole.specialist, state := [("b", 2)], createdAt := 0, lastAccess := 0
    ttl := 3600, isActive := true, childSessions := [], memoryContext := [] }

def exChildA3 : SessionContext :=
  { exChildB2 with state := [("a", 3)] }

def exHierState : OState :=
  { emptyOState with sessions := [("root", exRootA1), ("child", exChildB2)] }

def exHierState2 : OState :=
  { emptyOState with sessions := [("root", exRootA1), ("child", exChildA3)] }

def exFreshPattern : LearnedPattern :=
  { id := "pat", type := PatternType.workflow, description := ""
    conditions := [], actions := [], confidence := 0.5, usageCount := 0
    successRate := JSNum.num 0, lastApplied := 0, applicableContexts := [] }

def exPatternState : OState :=
  { emptyOState with patterns := [("pat", exFreshPattern)] }

def exExpiredInactive : SessionContext :=
  { id := "s1", parentSessionId := none, hierarchyLevel := 0
    agentRole := AgentRole.coordinator, state := [], createdAt := 0, lastAccess := 0
    ttl := 1, isActive := false, childSessions := [], memoryContext := [] }

def exExpiredState : OState :=
  { emptyOState with sessions := [("s1", exExpiredInactive)] }

def exInactiveS : SessionContext :=
  { id := "s", parentSessionId := none, hierarchyLevel := 0
    agentRole := AgentRole.specialist, state := [], createdAt := 0, lastAccess := 0
    ttl := 10, isActive := false, childSessions := [], memoryContext := [] }

def exInactiveState : OState :=
  { emptyOState with sessions := [("s", exInactiveS)] }

/-! ### Association-list lemmas -/

theorem mapGet_mapSet_self {α : Type} (m : List (String × α)) (k : String) (v : α) :
    mapGet (mapSet m k v) k = some v := by
  induction m with
  | nil => simp [mapGet, mapSet]
  | cons kv rest ih =>
    obtain ⟨k', v'⟩ := kv
    by_cases h : k' = k
    · simp [mapSet, h, mapGet]
    · simp [mapSet, h, mapGet, ih]

theorem mapGet_mapSet_ne {α : Type} (m : List (String × α)) (k k' : String) (v : α)
    (h : k' ≠ k) : mapGet (mapSet m k v) k' = mapGet m k' := by
  have hk : k ≠ k' := Ne.symm h
  induction m with
  | nil => simp [mapGet, mapSet, hk]
  | cons kv rest ih =>
    obtain ⟨k₀, v₀⟩ := kv
    by_cases h₀ : k₀ = k
    · subst h₀
      simp [mapSet, mapGet, hk]
    · simp only [mapSet, if_neg h₀, mapGet]
      by_cases h₁ : k₀ = k'
      · simp [h₁]
      · simp [h₁, ih]

theorem mapGet_eq_none_iff {α : Type} (m : List (String × α)) (k : String) :
    mapGet m k = none ↔ k ∉ m.map Prod.fst := by
  induction m with
  | nil => simp [mapGet]
  | cons kv rest ih =>
    obtain ⟨k', v'⟩ := kv
    by_cases h : k' = k
    · simp [mapGet, h]
    · simp [mapGet, h, ih, Ne.symm h]

theorem mapSet_keys_of_some {α : Type} (m : List (String × α)) (k : String) (v v₀ : α)
    (h : mapGet m k = some v₀) :
    (mapSet m k v).map Prod.fst = m.map Prod.fst := by
  induction m with
  | nil => simp [mapGet] at h
  | cons kv rest ih =>
    obtain ⟨k', v'⟩ := kv
    by_cases hk : k' = k
    · simp [mapSet, hk]
    · simp only [mapGet, if_neg hk] at h
      simp [mapSet, hk, ih h]

theorem mapSet_keys_of_none {α : Type} (m : List (String × α)) (k : String) (v : α)
    (h : mapGet m k = none) :
    (mapSet m k v).map Prod.fst = m.map Prod.fst ++ [k] := by
  induction m with
  | nil => simp [mapSet]
  | cons kv rest ih =>
    obtain ⟨k', v'⟩ := kv
    by_cases hk : k' = k
    · simp [mapGet, hk] at h
    · simp only [mapGet, if_neg hk] at h
      simp [mapSet, hk, ih h]

theorem mapSet_append_of_not_mem {α : Type} (pre l : List (String × α)) (k : String) (v : α)
    (h : k ∉ pre.map Prod.fst) :
    mapSet (pre ++ l) k v = pre ++ mapSet l k v := by
  induction pre with
  | nil => simp
  | cons kv rest ih =>
    obtain ⟨k', v'⟩ := kv
    simp only [List.map_cons, List.mem_cons] at h
    push_neg at h
    simp [mapSet, Ne.symm h.1, ih h.2]

theorem mapGet_map_val {α β : Type} (f : α → β) (m : List (String × α)) (k : String) :
    mapGet (m.map (fun kv => (kv.1, f kv.2))) k = (mapGet m k).map f := by
  induction m with
  | nil => simp [mapGet]
  | cons kv rest ih =>
    obtain ⟨k', v'⟩ := kv
    by_cases h : k' = k
    · simp [mapGet, h]
    · simp [mapGet, h, ih]

/-! ### Record- and state-preservation lemmas -/

theorem touchedOnly_refl (now : Int) (s : SessionContext) : touchedOnly now s s :=
  ⟨rfl, rfl, rfl, rfl, rfl, rfl, Or.inl rfl⟩

theorem touchedOnly_trans {now : Int} {s s' s'' : SessionContext}
    (h : touchedOnly now s s') (h' : touchedOnly now s' s'') : touchedOnly now s s'' := by
  obtain ⟨h1, h2, h3, h4, h5, h6, h7⟩ := h
  obtain ⟨g1, g2, g3, g4, g5, g6, g7⟩ := h'
  refine ⟨g1.trans h1, g2.trans h2, g3.trans h3, g4.trans h4, g5.trans h5, g6.trans h6, ?_⟩
  rcases g7 with g7 | ⟨g7, g8⟩
  · rcases h7 with h7 | ⟨h7, h8⟩
    · exact Or.inl (g7.trans h7)
    · exact Or.inr ⟨g7.trans h7, h8⟩
  · exact Or.inr ⟨g7, by rw [h5, h6] at g8; exact g8⟩

theorem touchedOnly.toPreservesHier {now : Int} {s s' : SessionContext}
    (h : touchedOnly now s s') : preservesHier s s' := by
  obtain ⟨_, h2, h3, h4, _, _, h7⟩ := h
  refine ⟨h2, h3, fun c hc => by rw [h4]; exact hc, fun ha => ?_⟩
  rcases h7 with h7 | ⟨h7, _⟩
  · rw [h7, ha]
  · exact h7

theorem preservesHier_trans {s s' s'' : SessionContext}
    (h : preservesHier s s') (h' : preservesHier s' s'') : preservesHier s s'' := by
  obtain ⟨h1, h2, h3, h4⟩ := h
  obtain ⟨g1, g2, g3, g4⟩ := h'
  exact ⟨g1.trans h1, g2.trans h2, fun c hc => g3 c (h3 c hc), fun ha => g4 (h4 ha)⟩

theorem listTouched_refl (now : Int) (l : List (String × SessionContext)) :
    listTouched now l l :=
  fun _ s h => ⟨s, h, touchedOnly_refl now s⟩

theorem listTouched_trans {now : Int} {l l' l'' : List (String × SessionContext)}
    (h : listTouched now l l') (h' : listTouched now l' l'') : listTouched now l l'' := by
  intro x s hx
  obtain ⟨s', hs', ht⟩ := h x s hx
  obtain ⟨s'', hs'', ht'⟩ := h' x s' hs'
  exact ⟨s'', hs'', touchedOnly_trans ht ht'⟩

theorem listTouched.toListPreserved {now : Int} {l l' : List (String × SessionContext)}
    (h : listTouched now l l') : listPreserved l l' := by
  intro x s hx
  obtain ⟨s', hs', ht⟩ := h x s hx
  exact ⟨s', hs', ht.toPreservesHier⟩

theorem listTouched_mapSet {now : Int} {l : List (String × SessionContext)}
    {sid : String} {s s' : SessionContext}
    (hget : mapGet l sid = some s) (ht : touchedOnly now s s') :
    listTouched now l (mapSet l sid s') := by
  intro x sx hx
  by_cases hxs : x = sid
  · subst hxs
    rw [hx] at hget
    exact ⟨s', mapGet_mapSet_self l x s', Option.some.inj hget ▸ ht⟩
  · exact ⟨sx, (mapGet_mapSet_ne l sid x s' hxs).trans hx, touchedOnly_refl now sx⟩

theorem mapGet_some_mem {α : Type} {m : List (String × α)} {k : String} {v : α}
    (h : mapGet m k = some v) : k ∈ m.map Prod.fst := by
  by_contra hmem
  rw [← mapGet_eq_none_iff m k] at hmem
  rw [hmem] at h
  exact Option.noConfusion h

theorem mapSet_keys_of_mem {α : Type} {m : List (String × α)} {k : String} (v : α)
    (h : k ∈ m.map Prod.fst) : (mapSet m k v).map Prod.fst = m.map Prod.fst := by
  cases hget : mapGet m k with
  | none => exact absurd h ((mapGet_eq_none_iff m k).mp hget)
  | some v₀ => exact mapSet_keys_of_some m k v v₀ hget

theorem sessionsOnlyDiffer_refl (σ : OState) : sessionsOnlyDiffer σ σ :=
  ⟨rfl, rfl, rfl, rfl⟩

theorem sessionsOnlyDiffer_trans {σ σ' σ'' : OState}
    (h : sessionsOnlyDiffer σ σ') (h' : sessionsOnlyDiffer σ' σ'') :
    sessionsOnlyDiffer σ σ'' :=
  ⟨h'.1.trans h.1, h'.2.1.trans h.2.1, h'.2.2.1.trans h.2.2.1, h'.2.2.2.trans h.2.2.2⟩

theorem getSessionContext_facts (fuel : Nat) :
    ∀ (σ : OState) (sid : String) (inc : Bool) (now : Int),
      listTouched now σ.sessions (getSessionContext fuel σ sid inc now).2.sessions ∧
      (getSessionContext fuel σ sid inc now).2.sessions.map Prod.fst
        = σ.sessions.map Prod.fst ∧
      sessionsOnlyDiffer σ (getSessionContext fuel σ sid inc now).2 := by
  induction fuel with
  | zero =>
    intro σ sid inc now
    exact ⟨listTouched_refl now σ.sessions, rfl, sessionsOnlyDiffer_refl σ⟩
  | succ fuel ih =>
    intro σ sid inc now
    cases hget : mapGet σ.sessions sid with
    | none =>
      simp only [getSessionContext, hget]
      exact ⟨listTouched_refl now σ.sessions, by simp, sessionsOnlyDiffer_refl σ⟩
    | some session =>
      obtain ⟨sId, sPar, sLvl, sRole, sState, sCreated, sLast, sTtl, sAct, sChild, sMem⟩ :=
        session
      simp only [getSessionContext, hget]
      have t01 : listTouched now σ.sessions
          (mapSet σ.sessions sid ⟨sId, sPar, sLvl, sRole, sState, sCreated, now, sTtl, sAct, sChild, sMem⟩) :=
        listTouched_mapSet hget ⟨rfl, rfl, rfl, rfl, rfl, rfl, Or.inl rfl⟩
      have h1get : mapGet
          (mapSet σ.sessions sid ⟨sId, sPar, sLvl, sRole, sState, sCreated, now, sTtl, sAct, sChild, sMem⟩) sid
          = some ⟨sId, sPar, sLvl, sRole, sState, sCreated, now, sTtl, sAct, sChild, sMem⟩ :=
        mapGet_mapSet_self σ.sessions sid _
      have k01 : (mapSet σ.sessions sid ⟨sId, sPar, sLvl, sRole, sState, sCreated, now, sTtl, sAct, sChild, sMem⟩).map Prod.fst
          = σ.sessions.map Prod.fst :=
        mapSet_keys_of_some σ.sessions sid _ _ hget
      by_cases hexp : now - sCreated > sTtl * 1000
      · rw [if_pos hexp]
        have t12 : touchedOnly now
            (⟨sId, sPar, sLvl, sRole, sState, sCreated, now, sTtl, sAct, sChild, sMem⟩ : SessionContext)
            ⟨sId, sPar, sLvl, sRole, sState, sCreated, now, sTtl, false, sChild, sMem⟩ :=
          ⟨rfl, rfl, rfl, rfl, rfl, rfl, Or.inr ⟨rfl, hexp⟩⟩
        exact ⟨listTouched_trans t01 (listTouched_mapSet h1get t12),
          (mapSet_keys_of_some _ sid _ _ h1get).trans k01, sessionsOnlyDiffer_refl σ⟩
      · rw [if_neg hexp]
        cases sPar with
        | none =>
          cases inc <;>
            exact ⟨t01, k01, sessionsOnlyDiffer_refl σ⟩
        | some pid =>
          cases inc with
          | false => exact ⟨t01, k01, sessionsOnlyDiffer_refl σ⟩
          | true =>
            simp only []
            obtain ⟨trec, krec, drec⟩ :=
              ih { σ with sessions := mapSet σ.sessions sid ⟨sId, some pid, sLvl, sRole, sState, sCreated, now, sTtl, sAct, sChild, sMem⟩ } pid true now
            rcases hrec : getSessionContext fuel { σ with sessions := mapSet σ.sessions sid ⟨sId, some pid, sLvl, sRole, sState, sCreated, now, sTtl, sAct, sChild, sMem⟩ } pid true now with ⟨pcOpt, σ2⟩
            rw [hrec] at trec krec drec
            cases pcOpt with
            | none =>
              exact ⟨listTouched_trans t01 trec, krec.trans k01, drec⟩
            | some parentContext =>
              obtain ⟨s₁', hs₁', ht₁'⟩ := trec sid
                ⟨sId, some pid, sLvl, sRole, sState, sCreated, now, sTtl, sAct, sChild, sMem⟩ h1get
              have hactive : s₁'.isActive = sAct := by
                rcases ht₁'.2.2.2.2.2.2 with h | ⟨_, habs⟩
                · exact h
                · exact absurd habs hexp
              have ht3 : touchedOnly now s₁'
                  ⟨sId, some pid, sLvl, sRole, mergeStates parentContext.state sState,
                    sCreated, now, sTtl, sAct, sChild, sMem⟩ :=
                ⟨ht₁'.1.symm, ht₁'.2.1.symm, ht₁'.2.2.1.symm, ht₁'.2.2.2.1.symm,
                  ht₁'.2.2.2.2.1.symm, ht₁'.2.2.2.2.2.1.symm, Or.inl hactive.symm⟩
              refine ⟨listTouched_trans t01 (listTouched_trans trec
                  (listTouched_mapSet hs₁' ht3)), ?_, drec⟩
              exact (mapSet_keys_of_mem _ (by
                rw [krec, k01]; exact mapGet_some_mem hget)).trans (krec.trans k01)

/-! ### Expiry-sweep lemmas -/

theorem cleanup_foldl_count (now : Int) (l : List (String × SessionContext)) :
    ∀ acc : Nat × OState,
      (l.foldl (cleanupStep now) acc).1 = acc.1 + l.countP (isExpiredEntry now) := by
  induction l with
  | nil => intro acc; simp
  | cons kv rest ih =>
    intro acc
    rw [List.foldl_cons, ih]
    by_cases h : now - kv.2.createdAt > kv.2.ttl * 1000
    · have hd : isExpiredEntry now kv = true := by simp [isExpiredEntry, h]
      simp only [cleanupStep, if_pos h, List.countP_cons, hd, if_pos]
      omega
    · have hd : isExpiredEntry now kv = false := by simp [isExpiredEntry, h]
      simp only [cleanupStep, if_neg h, List.countP_cons, hd]
      simp

theorem cleanup_foldl_sessions (now : Int) (l : List (String × SessionContext)) :
    ∀ acc : Nat × OState,
      (l.foldl (cleanupStep now) acc).2.sessions =
        l.foldl (sweepSessions now) acc.2.sessions := by
  induction l with
  | nil => intro acc; rfl
  | cons kv rest ih =>
    intro acc
    rw [List.foldl_cons, List.foldl_cons, ih]
    by_cases h : now - kv.2.createdAt > kv.2.ttl * 1000
    · simp only [cleanupStep, if_pos h, sweepSessions]
    · simp only [cleanupStep, if_neg h, sweepSessions]

theorem cleanup_foldl_rest (now : Int) (l : List (String × SessionContext)) :
    ∀ acc : Nat × OState,
      (l.foldl (cleanupStep now) acc).2.agents = acc.2.agents ∧
      (l.foldl (cleanupStep now) acc).2.conflicts = acc.2.conflicts ∧
      (l.foldl (cleanupStep now) acc).2.patterns = acc.2.patterns ∧
      (l.foldl (cleanupStep now) acc).2.coordination.conflictResolution
        = acc.2.coordination.conflictResolution ∧
      (l.foldl (cleanupStep now) acc).2.coordination.activeAgents
        = acc.2.coordination.activeAgents ∧
      (l.foldl (cleanupStep now) acc).2.coordination.globalPatterns
        = acc.2.coordination.globalPatterns ∧
      (l.foldl (cleanupStep now) acc).2.coordination.orchestratorId
        = acc.2.coordination.orchestratorId := by
  induction l with
  | nil => intro acc; exact ⟨rfl, rfl, rfl, rfl, rfl, rfl, rfl⟩
  | cons kv rest ih =>
    intro acc
    rw [List.foldl_cons]
    by_cases h : now - kv.2.createdAt > kv.2.ttl * 1000
    · simp only [cleanupStep, if_pos h]
      exact ih _
    · simp only [cleanupStep, if_neg h]
      exact ih _

theorem expireEntry_eq_pair (now : Int) (kv : String × SessionContext) :
    expireEntry now kv = (kv.1, expireVal now kv.2) := by
  obtain ⟨k, s⟩ := kv
  by_cases h : now - s.createdAt > s.ttl * 1000 <;>
    simp [expireEntry, expireVal, h]

theorem sweepSessions_foldl_eq (now : Int) :
    ∀ (l pre : List (String × SessionContext)),
      ((pre ++ l).map Prod.fst).Nodup →
      l.foldl (sweepSessions now) (pre ++ l) = pre ++ l.map (expireEntry now) := by
  intro l
  induction l with
  | nil => intro pre _; simp
  | cons kv rest ih =>
    intro pre h
    obtain ⟨k, s⟩ := kv
    rw [List.map_append, List.map_cons] at h
    have hkeys := h
    rw [List.nodup_append] at hkeys
    have hkpre : k ∉ pre.map Prod.fst := fun hmem =>
      hkeys.2.2 hmem (List.mem_cons_self k _)
    have hkrest : k ∉ rest.map Prod.fst := by
      have := hkeys.2.1
      rw [List.nodup_cons] at this
      exact this.1
    rw [List.foldl_cons]
    by_cases hx : now - s.createdAt > s.ttl * 1000
    · have hstep : sweepSessions now (pre ++ (k, s) :: rest) (k, s)
          = (pre ++ [(k, { s with isActive := false })]) ++ rest := by
        simp only [sweepSessions, if_pos hx,
          mapSet_append_of_not_mem pre ((k, s) :: rest) k _ hkpre, mapSet]
        simp
      rw [hstep]
      have h2 : (((pre ++ [(k, { s with isActive := false })]) ++ rest).map Prod.fst).Nodup := by
        rw [List.map_append, List.map_append, List.map_cons, List.map_nil,
          List.append_assoc, List.singleton_append]
        exact h
      have hih := ih (pre ++ [(k, ({ s with isActive := false } : SessionContext))]) h2
      rw [hih]
      have hexp : expireEntry now (k, s) = (k, { s with isActive := false }) := by
        simp [expireEntry, hx]
      simp [hexp]
    · have hstep : sweepSessions now (pre ++ (k, s) :: rest) (k, s)
          = (pre ++ [(k, s)]) ++ rest := by
        simp [sweepSessions, hx]
      rw [hstep]
      have h2 : (((pre ++ [(k, s)]) ++ rest).map Prod.fst).Nodup := by
        rw [List.map_append, List.map_append, List.map_cons, List.map_nil,
          List.append_assoc, List.singleton_append]
        exact h
      have hih := ih (pre ++ [(k, s)]) h2
      rw [hih]
      have hexp : expireEntry now (k, s) = (k, s) := by
        simp [expireEntry, hx]
      simp [hexp]

/-- Closed form of the expiry sweep on states with unique session keys:
the count is the number of expired entries and the session list is rewritten
pointwise, deactivating exactly the expired sessions. -/
theorem cleanupExpiredSessions_char (σ : OState) (now : Int) (h : sessionKeysNodup σ) :
    (cleanupExpiredSessions σ now).1 = σ.sessions.countP (isExpiredEntry now) ∧
    (cleanupExpiredSessions σ now).2.sessions = σ.sessions.map (expireEntry now) ∧
    (cleanupExpiredSessions σ now).2.agents = σ.agents ∧
    (cleanupExpiredSessions σ now).2.conflicts = σ.conflicts ∧
    (cleanupExpiredSessions σ now).2.patterns = σ.patterns ∧
    (cleanupExpiredSessions σ now).2.coordination.conflictResolution
      = σ.coordination.conflictResolution := by
  have hc := cleanup_foldl_count now σ.sessions (0, σ)
  have hs := cleanup_foldl_sessions now σ.sessions (0, σ)
  have hr := cleanup_foldl_rest now σ.sessions (0, σ)
  have hmap : σ.sessions.foldl (sweepSessions now) σ.sessions
      = σ.sessions.map (expireEntry now) := by
    have := sweepSessions_foldl_eq now σ.sessions [] (by simpa using h)
    simpa using this
  refine ⟨by simpa using hc, ?_, hr.1, hr.2.1, hr.2.2.1, hr.2.2.2.1⟩
  rw [cleanupExpiredSessions, hs, hmap]

theorem touchedOnly_expireVal (now : Int) (s : SessionContext) :
    touchedOnly now s (expireVal now s) := by
  unfold expireVal
  by_cases h : now - s.createdAt > s.ttl * 1000
  · rw [if_pos h]
    exact ⟨rfl, rfl, rfl, rfl, rfl, rfl, Or.inr ⟨rfl, h⟩⟩
  · rw [if_neg h]
    exact touchedOnly_refl now s

theorem expire_map_pair (now : Int) (l : List (String × SessionContext)) :
    l.map (expireEntry now) = l.map (fun kv => (kv.1, expireVal now kv.2)) :=
  List.map_congr_left fun kv _ => expireEntry_eq_pair now kv

theorem expire_listTouched (now : Int) (l : List (String × SessionContext)) :
    listTouched now l (l.map (expireEntry now)) := by
  intro x s hx
  rw [expire_map_pair, mapGet_map_val, hx]
  exact ⟨expireVal now s, rfl, touchedOnly_expireVal now s⟩

theorem expire_keys (now : Int) (l : List (String × SessionContext)) :
    (l.map (expireEntry now)).map Prod.fst = l.map Prod.fst := by
  rw [expire_map_pair, List.map_map]
  exact List.map_congr_left fun kv _ => rfl

/-! ### Per-operation state-shape lemmas -/

theorem preservesHier_refl (s : SessionContext) : preservesHier s s :=
  ⟨rfl, rfl, fun _ hc => hc, fun h => h⟩

theorem listPreserved_refl (l : List (String × SessionContext)) : listPreserved l l :=
  fun _ s h => ⟨s, h, preservesHier_refl s⟩

theorem registerAgent_sessions (σ : OState) (agentId : String) (role : AgentRole)
    (specialization : List String) (now : Int) :
    (registerAgent σ agentId role specialization now).2.sessions = σ.sessions := rfl

theorem registerAgent_conflictResolution (σ : OState) (agentId : String) (role : AgentRole)
    (specialization : List String) (now : Int) :
    (registerAgent σ agentId role specialization now).2.coordination.conflictResolution
      = σ.coordination.conflictResolution := rfl

theorem learnPattern_sessions (σ : OState) (patternId : String) (ptype : PatternType)
    (context action : List (String × Int)) (applicableContexts : List String) (now : Int) :
    (learnPattern σ patternId ptype context action applicableContexts now).2.sessions
      = σ.sessions := rfl

theorem learnPattern_conflictResolution (σ : OState) (patternId : String) (ptype : PatternType)
    (context action : List (String × Int)) (applicableContexts : List String) (now : Int) :
    (learnPattern σ patternId ptype context action applicableContexts now).2.coordination.conflictResolution
      = σ.coordination.conflictResolution := rfl

theorem applyPattern_sessions (σ : OState) (patternId : String)
    (currentContext : List (String × Int)) (execFails : Bool) (now : Int) :
    (applyPattern σ patternId currentContext execFails now).2.sessions = σ.sessions := by
  unfold applyPattern
  dsimp only
  repeat' split
  all_goals rfl

theorem applyPattern_conflictResolution (σ : OState) (patternId : String)
    (currentContext : List (String × Int)) (execFails : Bool) (now : Int) :
    (applyPattern σ patternId currentContext execFails now).2.coordination.conflictResolution
      = σ.coordination.conflictResolution := by
  unfold applyPattern
  dsimp only
  repeat' split
  all_goals rfl

theorem resolveConflict_sessions (σ : OState) (conflictId : String)
    (conflictType : ConflictType) (involvedItems : List String) (severity : Severity)
    (metadata : List (String × Int)) (now : Int) :
    (resolveConflict σ conflictId conflictType involvedItems severity metadata now).state.sessions
      = σ.sessions := by
  unfold resolveConflict escalateToHuman
  dsimp only
  repeat' split
  all_goals rfl

theorem resolveConflict_tier3 (σ : OState) (conflictId : String)
    (conflictType : ConflictType) (involvedItems : List String) (severity : Severity)
    (metadata : List (String × Int)) (now : Int) :
    (resolveConflict σ conflictId conflictType involvedItems severity metadata now).state.coordination.conflictResolution.tier3
      = σ.coordination.conflictResolution.tier3 := by
  unfold resolveConflict escalateToHuman
  dsimp only
  repeat' split
  all_goals rfl

theorem createSession_conflictResolution (σ : OState) (sessionId : String)
    (agentRole : AgentRole) (opts : CreateOptions) (now : Int) :
    (createSession σ sessionId agentRole opts now).2.coordination.conflictResolution
      = σ.coordination.conflictResolution := by
  unfold createSession
  dsimp only
  repeat' split
  all_goals rfl

theorem createSession_listPreserved (σ : OState) (sessionId : String)
    (agentRole : AgentRole) (opts : CreateOptions) (now : Int)
    (fresh : mapGet σ.sessions sessionId = none) :
    listPreserved σ.sessions (createSession σ sessionId agentRole opts now).2.sessions := by
  intro x sx hx
  have hxne : x ≠ sessionId := by
    intro e; subst e; rw [hx] at fresh; exact Option.noConfusion fresh
  unfold createSession
  cases hpo : opts.parentSessionId with
  | none =>
    refine ⟨sx, ?_, preservesHier_refl sx⟩
    simp only []
    rw [mapGet_mapSet_ne _ _ _ _ hxne]
    exact hx
  | some pid =>
    cases hpp : mapGet σ.sessions pid with
    | none =>
      refine ⟨sx, ?_, preservesHier_refl sx⟩
      simp only [hpp]
      rw [mapGet_mapSet_ne _ _ _ _ hxne]
      exact hx
    | some parent =>
      by_cases hxp : x = pid
      · subst hxp
        rw [hx] at hpp
        have hsx : sx = parent := Option.some.inj hpp
        subst hsx
        refine ⟨{ sx with childSessions := sx.childSessions ++ [sessionId] }, ?_, ?_⟩
        · simp only [hx]
          rw [mapGet_mapSet_ne _ _ _ _ hxne, mapGet_mapSet_self]
        · exact ⟨rfl, rfl, fun c hc => List.mem_append_left _ hc, fun h => h⟩
      · refine ⟨sx, ?_, preservesHier_refl sx⟩
        simp only [hpp]
        rw [mapGet_mapSet_ne _ _ _ _ hxne, mapGet_mapSet_ne _ _ _ _ hxp]
        exact hx

theorem createSession_keys (σ : OState) (sessionId : String)
    (agentRole : AgentRole) (opts : CreateOptions) (now : Int)
    (fresh : mapGet σ.sessions sessionId = none) :
    (createSession σ sessionId agentRole opts now).2.sessions.map Prod.fst
      = σ.sessions.map Prod.fst ++ [sessionId] := by
  unfold createSession
  cases hpo : opts.parentSessionId with
  | none =>
    simp only []
    rw [mapSet_keys_of_none _ _ _ fresh]
  | some pid =>
    cases hpp : mapGet σ.sessions pid with
    | none =>
      simp only [hpp]
      rw [mapSet_keys_of_none _ _ _ fresh]
    | some parent =>
      have hne : sessionId ≠ pid := by
        intro e; subst e; rw [hpp] at fresh; exact Option.noConfusion fresh
      simp only [hpp]
      rw [mapSet_keys_of_none _ _ _ (by rw [mapGet_mapSet_ne _ _ _ _ hne]; exact fresh),
        mapSet_keys_of_some _ _ _ _ hpp]

/-! ### Step-level preservation -/

theorem step_listPreserved {σ σ' : OState} (h : Step σ σ') (hnd : sessionKeysNodup σ) :
    listPreserved σ.sessions σ'.sessions := by
  cases h with
  | create sid role opts now fresh => exact createSession_listPreserved σ sid role opts now fresh
  | register a r sp now => rw [registerAgent_sessions]; exact listPreserved_refl _
  | resolve cid t items sev md now => rw [resolveConflict_sessions]; exact listPreserved_refl _
  | learn pid pt c a ac now => rw [learnPattern_sessions]; exact listPreserved_refl _
  | apply pid ctx ef now => rw [applyPattern_sessions]; exact listPreserved_refl _
  | getCtx fuel sid inc now =>
    exact ((getSessionContext_facts fuel σ sid inc now).1).toListPreserved
  | cleanup now =>
    rw [(cleanupExpiredSessions_char σ now hnd).2.1]
    exact (expire_listTouched now σ.sessions).toListPreserved

theorem step_keysNodup {σ σ' : OState} (h : Step σ σ') (hnd : sessionKeysNodup σ) :
    sessionKeysNodup σ' := by
  cases h with
  | create sid role opts now fresh =>
    unfold sessionKeysNodup
    rw [createSession_keys σ sid role opts now fresh]
    have hmem : sid ∉ σ.sessions.map Prod.fst := (mapGet_eq_none_iff _ _).mp fresh
    rw [List.nodup_append]
    exact ⟨hnd, List.nodup_singleton sid, fun a ha hb => by
      rw [List.mem_singleton] at hb; subst hb; exact hmem ha⟩
  | register a r sp now => unfold sessionKeysNodup; rw [registerAgent_sessions]; exact hnd
  | resolve cid t items sev md now =>
    unfold sessionKeysNodup; rw [resolveConflict_sessions]; exact hnd
  | learn pid pt c a ac now => unfold sessionKeysNodup; rw [learnPattern_sessions]; exact hnd
  | apply pid ctx ef now => unfold sessionKeysNodup; rw [applyPattern_sessions]; exact hnd
  | getCtx fuel sid inc now =>
    unfold sessionKeysNodup
    rw [(getSessionContext_facts fuel σ sid inc now).2.1]
    exact hnd
  | cleanup now =>
    unfold sessionKeysNodup
    rw [(cleanupExpiredSessions_char σ now hnd).2.1, expire_keys]
    exact hnd

theorem step_tier3 {σ σ' : OState} (h : Step σ σ') :
    σ'.coordination.conflictResolution.tier3 = σ.coordination.conflictResolution.tier3 := by
  cases h with
  | create sid role opts now fresh => rw [createSession_conflictResolution]
  | register a r sp now => rw [registerAgent_conflictResolution]
  | resolve cid t items sev md now => rw [resolveConflict_tier3]
  | learn pid pt c a ac now => rw [learnPattern_conflictResolution]
  | apply pid ctx ef now => rw [applyPattern_conflictResolution]
  | getCtx fuel sid inc now =>
    rw [(getSessionContext_facts fuel σ sid inc now).2.2.2.2.2]
  | cleanup now =>
    have hr := (cleanup_foldl_rest now σ.sessions (0, σ)).2.2.2.1
    show (cleanupExpiredSessions σ now).2.coordination.conflictResolution.tier3 = _
    rw [cleanupExpiredSessions, hr]

theorem hierRelated_of_listPreserved {σ σ' : OState}
    (h : listPreserved σ.sessions σ'.sessions) {s p : String}
    (hr : hierRelated σ s p = true) : hierRelated σ' s p = true := by
  unfold hierRelated at hr ⊢
  cases hS : mapGet σ.sessions s with
  | none => rw [hS] at hr; simp at hr
  | some S =>
    cases hP : mapGet σ.sessions p with
    | none => rw [hS, hP] at hr; simp at hr
    | some P =>
      rw [hS, hP] at hr
      simp only [Bool.and_eq_true, decide_eq_true_eq] at hr
      obtain ⟨⟨hr1, hr2⟩, hr3⟩ := hr
      obtain ⟨S', hS', hpS⟩ := h s S hS
      obtain ⟨P', hP', hpP⟩ := h p P hP
      rw [hS', hP']
      simp only [Bool.and_eq_true, decide_eq_true_eq]
      exact ⟨⟨hpS.1.trans hr1, by rw [hpS.2.1, hr2, hpP.2.1]⟩, hpP.2.2.1 s hr3⟩

theorem sessionInactive_of_listPreserved {σ σ' : OState}
    (h : listPreserved σ.sessions σ'.sessions) {sid : String}
    (hi : sessionInactive σ sid = true) : sessionInactive σ' sid = true := by
  unfold sessionInactive at hi ⊢
  cases hS : mapGet σ.sessions sid with
  | none => rw [hS] at hi; simp at hi
  | some S =>
    rw [hS] at hi
    simp only [Bool.not_eq_true'] at hi
    obtain ⟨S', hS', hpS⟩ := h sid S hS
    rw [hS']
    simp only [Bool.not_eq_true']
    exact hpS.2.2.2 hi

/-! ### Merge-lookup lemmas -/

theorem mapGet_append {α : Type} (l1 l2 : List (String × α)) (k : String) :
    mapGet (l1 ++ l2) k = (mapGet l1 k).or (mapGet l2 k) := by
  induction l1 with
  | nil => simp [mapGet]
  | cons kv rest ih =>
    obtain ⟨k', v'⟩ := kv
    by_cases h : k' = k <;> simp [mapGet, h, ih]

theorem mapGet_map_keyval {α β : Type} (f : String → α → β) (m : List (String × α)) (k : String) :
    mapGet (m.map (fun kv => (kv.1, f kv.1 kv.2))) k = (mapGet m k).map (f k) := by
  induction m with
  | nil => simp [mapGet]
  | cons kv rest ih =>
    obtain ⟨k', v'⟩ := kv
    by_cases h : k' = k
    · subst h; simp [mapGet]
    · simp [mapGet, h, ih]

theorem merge_fst_part (p c : List (String × Int)) :
    (p.map (fun kv =>
      match mapGet c kv.1 with
      | some v => (kv.1, v)
      | none => kv))
      = p.map (fun kv => (kv.1, (mapGet c kv.1).getD kv.2)) :=
  List.map_congr_left fun kv _ => by
    cases h : mapGet c kv.1 <;> simp [h]

theorem mapGet_filter_none (p c : List (String × Int)) (k : String) :
    mapGet (c.filter (fun kv => (mapGet p kv.1).isNone)) k
      = if (mapGet p k).isNone then mapGet c k else none := by
  induction c with
  | nil => simp [mapGet]
  | cons kv rest ih =>
    obtain ⟨k', v'⟩ := kv
    by_cases hk : k' = k
    · subst hk
      by_cases hp : (mapGet p k').isNone
      · simp [List.filter_cons, hp, mapGet]
      · simp [List.filter_cons, hp, mapGet, ih]
    · by_cases hp : (mapGet p k').isNone
      · simp [List.filter_cons, hp, mapGet, hk, ih]
      · simp [List.filter_cons, hp, mapGet, hk, ih]

theorem mapGet_mergeStates (p c : List (String × Int)) (k : String) :
    mapGet (mergeStates p c) k = (mapGet c k).or (mapGet p k) := by
  unfold mergeStates
  rw [merge_fst_part, mapGet_append,
    mapGet_map_keyval (fun key v => (mapGet c key).getD v) p k, mapGet_filter_none]
  cases hp : mapGet p k <;> cases hc : mapGet c k <;> simp [hp, hc]

/-! ### Two-level characterization of `getSessionContext` -/

theorem getSessionContext_succ (fuel : Nat) (σ : OState) (sessionId : String)
    (includeHierarchy : Bool) (now : Int) :
    getSessionContext (fuel + 1) σ sessionId includeHierarchy now
      = match mapGet σ.sessions sessionId with
        | none => (none, σ)
        | some session =>
          let session1 := { session with lastAccess := now }
          let σ1 : OState := { σ with sessions := mapSet σ.sessions sessionId session1 }
          if now - session.createdAt > session.ttl * 1000 then
            let session2 := { session with lastAccess := now, isActive := false }
            (some session2, { σ1 with sessions := mapSet σ1.sessions sessionId session2 })
          else
            match includeHierarchy, session.parentSessionId with
            | true, some pid =>
              match getSessionContext fuel σ1 pid true now with
              | (some parentContext, σ2) =>
                let session3 :=
                  { session with lastAccess := now, state := mergeStates parentContext.state session.state }
                (some session3, { σ2 with sessions := mapSet σ2.sessions sessionId session3 })
              | (none, σ2) => (some session1, σ2)
            | _, _ => (some session1, σ1) := rfl

theorem getCtx_root (fuel : Nat) (σ : OState) (sid : String) (now : Int) (S : SessionContext)
    (h : mapGet σ.sessions sid = some S) (hp : S.parentSessionId = none)
    (hexp : ¬ (now - S.createdAt > S.ttl * 1000)) :
    getSessionContext (fuel + 1) σ sid true now
      = (some ({ S with lastAccess := now }),
         { σ with sessions := mapSet σ.sessions sid ({ S with lastAccess := now }) }) := by
  obtain ⟨sId, sPar, sLvl, sRole, sState, sCreated, sLast, sTtl, sAct, sChild, sMem⟩ := S
  simp only at hp
  subst hp
  simp only [getSessionContext, h]
  rw [if_neg hexp]

theorem getCtx_child (fuel : Nat) (σ : OState) (c pid : String) (now : Int)
    (C P : SessionContext)
    (hc : mapGet σ.sessions c = some C) (hcp : C.parentSessionId = some pid)
    (hP : mapGet σ.sessions pid = some P) (hPr : P.parentSessionId = none)
    (hpc : pid ≠ c)
    (hexpC : ¬ (now - C.createdAt > C.ttl * 1000))
    (hexpP : ¬ (now - P.createdAt > P.ttl * 1000)) :
    getSessionContext (fuel + 2) σ c true now
      = (some ({ C with lastAccess := now, state := mergeStates P.state C.state }),
         { σ with sessions := mapSet (mapSet (mapSet σ.sessions c ({ C with lastAccess := now })) pid ({ P with lastAccess := now })) c ({ C with lastAccess := now, state := mergeStates P.state C.state }) }) := by
  obtain ⟨cId, cPar, cLvl, cRole, cState, cCreated, cLast, cTtl, cAct, cChild, cMem⟩ := C
  simp only at hcp
  subst hcp
  have hgetP : mapGet (mapSet σ.sessions c
      ⟨cId, some pid, cLvl, cRole, cState, cCreated, now, cTtl, cAct, cChild, cMem⟩) pid
      = some P := by
    rw [mapGet_mapSet_ne _ _ _ _ hpc]; exact hP
  have hrec := getCtx_root fuel
    { σ with sessions := mapSet σ.sessions c ⟨cId, some pid, cLvl, cRole, cState, cCreated, now, cTtl, cAct, cChild, cMem⟩ }
    pid now P hgetP hPr hexpP
  rw [getSessionContext_succ]
  simp only [hc]
  rw [if_neg hexpC]
  rw [hrec]

/-! ## Claim theorems -/

/-- C1 counterexample: a `createSession` call whose `parentSessionId` names no
existing session does not fail — it creates and stores a new active session,
so the session map changes, contradicting the claim that the call fails with
`InvalidParent` and leaves the store untouched. -/
theorem create_session_invalid_parent_counterexample :
    mapGet emptyOState.sessions "ghost" = none ∧
    Option.map SessionContext.isActive
      (mapGet (createSession emptyOState "s1" AgentRole.specialist exOptsGhostParent 0).2.sessions "s1")
      = some true ∧
    (createSession emptyOState "s1" AgentRole.specialist exOptsGhostParent 0).2.sessions
      ≠ emptyOState.sessions := by
  refine ⟨rfl, by decide, by decide⟩

/-- C1 (amended): `createSession` never fails on an invalid parent.  When
`parentSessionId` names no existing session, the session is still created
active with `hierarchyLevel = 1` and every other map entry is unchanged; when
it names an existing but inactive parent, the session is still created active
with level `parent.hierarchyLevel + 1` and its id is appended to the inactive
parent's `childSessions`. -/
theorem create_session_invalid_parent_amended :
    (∀ (σ : OState) (sid : String) (role : AgentRole) (opts : CreateOptions)
        (pid : String) (now : Int),
      opts.parentSessionId = some pid → mapGet σ.sessions pid = none →
      Option.map SessionContext.isActive
          (mapGet (createSession σ sid role opts now).2.sessions sid) = some true ∧
        (createSession σ sid role opts now).1.hierarchyLevel = 1 ∧
        ∀ x, x ≠ sid →
          mapGet (createSession σ sid role opts now).2.sessions x = mapGet σ.sessions x)
    ∧
    (∀ (σ : OState) (sid : String) (role : AgentRole) (opts : CreateOptions)
        (pid : String) (P : SessionContext) (now : Int),
      opts.parentSessionId = some pid → mapGet σ.sessions pid = some P →
      P.isActive = false → mapGet σ.sessions sid = none →
      Option.map SessionContext.isActive
          (mapGet (createSession σ sid role opts now).2.sessions sid) = some true ∧
        (createSession σ sid role opts now).1.hierarchyLevel = P.hierarchyLevel + 1 ∧
        Option.map SessionContext.childSessions
          (mapGet (createSession σ sid role opts now).2.sessions pid)
          = some (P.childSessions ++ [sid])) := by
  constructor
  · intro σ sid role opts pid now hpo hpid
    refine ⟨?_, ?_, ?_⟩
    · unfold createSession
      simp only [hpo, hpid]
      rw [mapGet_mapSet_self]
      rfl
    · unfold createSession
      simp only [hpo, hpid]
      simp [jsOrInt]
    · intro x hx
      unfold createSession
      simp only [hpo, hpid]
      rw [mapGet_mapSet_ne _ _ _ _ hx]
  · intro σ sid role opts pid P now hpo hP hinact fresh
    have hne : sid ≠ pid := by
      intro e; subst e; rw [hP] at fresh; exact Option.noConfusion fresh
    refine ⟨?_, ?_, ?_⟩
    · unfold createSession
      simp only [hpo, hP]
      rw [mapGet_mapSet_self]
      rfl
    · unfold createSession
      simp only [hpo, hP]
      by_cases hz : P.hierarchyLevel = 0 <;> simp [jsOrInt, hz]
    · unfold createSession
      simp only [hpo, hP]
      rw [mapGet_mapSet_ne _ _ _ _ (Ne.symm hne), mapGet_mapSet_self]
      rfl

/-- C1 witness: the amended statement applied at two concrete inputs — an
empty store with a dangling parent id, and a store holding an inactive
parent. -/
theorem create_session_invalid_parent_witness :
    (Option.map SessionContext.isActive
        (mapGet (createSession emptyOState "s1" AgentRole.specialist exOptsGhostParent 0).2.sessions "s1")
        = some true ∧
      (createSession emptyOState "s1" AgentRole.specialist exOptsGhostParent 0).1.hierarchyLevel = 1) ∧
    (exInactiveParent.isActive = false ∧
      Option.map SessionContext.childSessions
        (mapGet (createSession exInactiveParentState "s2" AgentRole.specialist exOptsParentP 5).2.sessions "p")
        = some ["s2"]) := by
  have h1 := create_session_invalid_parent_amended.1 emptyOState "s1" AgentRole.specialist
    exOptsGhostParent "ghost" 0 (by decide) (by decide)
  have h2 := create_session_invalid_parent_amended.2 exInactiveParentState "s2"
    AgentRole.specialist exOptsParentP "p" exInactiveParent 5 (by decide) (by decide)
    (by decide) (by decide)
  exact ⟨⟨h1.1, h1.2.1⟩, ⟨rfl, h2.2.2⟩⟩

/-- C2 counterexample: re-registering an existing agent id does not fail with
`DuplicateAgent`; the stored record is overwritten, resetting the accumulated
performance counters (here `tasksCompleted` drops from 5 to 0) and replacing
the role. -/
theorem register_agent_duplicate_counterexample :
    Option.map agentTasks (mapGet exAgentState.agents "a1") = some 5 ∧
    Option.map agentTasks
      (mapGet (registerAgent exAgentState "a1" AgentRole.specialist ["ui"] 9).2.agents "a1")
      = some 0 ∧
    Option.map AgentContext.role
      (mapGet (registerAgent exAgentState "a1" AgentRole.specialist ["ui"] 9).2.agents "a1")
      = some AgentRole.specialist := by
  refine ⟨rfl, by decide, by decide⟩

/-- C2 (amended): re-registering an already registered agent id succeeds and
overwrites the stored record with a freshly initialized agent — the requested
role and specializations, and performance counters reset to their initial
values. -/
theorem register_agent_duplicate_amended :
    ∀ (σ : OState) (agentId : String) (role : AgentRole) (spec : List String)
      (now : Int) (old : AgentContext),
      mapGet σ.agents agentId = some old →
      mapGet (registerAgent σ agentId role spec now).2.agents agentId
          = some (registerAgent σ agentId role spec now).1 ∧
        (registerAgent σ agentId role spec now).1.performance
          = { tasksCompleted := 0, successRate := 1, averageResponseTime := 0
              conflictResolutions := 0, patternContributions := 0 } ∧
        (registerAgent σ agentId role spec now).1.role = role ∧
        (registerAgent σ agentId role spec now).1.specialization = spec := by
  intro σ agentId role spec now old hold
  exact ⟨mapGet_mapSet_self σ.agents agentId _, rfl, rfl, rfl⟩

/-- C2 witness: the amended statement applied to a store holding agent `a1`
with five completed tasks. -/
theorem register_agent_duplicate_witness :
    mapGet (registerAgent exAgentState "a1" AgentRole.specialist ["ui"] 9).2.agents "a1"
        = some (registerAgent exAgentState "a1" AgentRole.specialist ["ui"] 9).1 ∧
      (registerAgent exAgentState "a1" AgentRole.specialist ["ui"] 9).1.performance
        = { tasksCompleted := 0, successRate := 1, averageResponseTime := 0
            conflictResolutions := 0, patternContributions := 0 } ∧
      (registerAgent exAgentState "a1" AgentRole.specialist ["ui"] 9).1.role
        = AgentRole.specialist ∧
      (registerAgent exAgentState "a1" AgentRole.specialist ["ui"] 9).1.specialization = ["ui"] :=
  register_agent_duplicate_amended exAgentState "a1" AgentRole.specialist ["ui"] 9
    exAgentSeasoned rfl

/-- C3: whenever the tier-1 attempt and the tier-2 attempt both report no
resolution, `resolveConflict` returns the conflict with `status = escalated`
and `resolutionTier = 3`, having attempted the tiers in order 1, 2, 3 (tier 2
is never skipped), and appends the conflict to the active-conflicts list
(which requires `tier3.enabled`; the second and third conjuncts show that
every operation preserves `tier3.enabled` and that the constructor sets it to
`true`, so the hypothesis holds in every reachable state). -/
theorem conflict_escalation_tier_order :
    (∀ (σ : OState) (cid : String) (t : ConflictType) (items : List String)
        (sev : Severity) (md : List (String × Int)) (now : Int),
      (attemptTier1Resolution σ.coordination (mkConflict cid t items sev md now)).resolved
          = false →
      (attemptTier2Resolution σ.coordination σ.agents
          ({ mkConflict cid t items sev md now with resolutionTier := 2 })).resolved = false →
      σ.coordination.conflictResolution.tier3.enabled = true →
      (resolveConflict σ cid t items sev md now).conflict.status = ConflictStatus.escalated ∧
        (resolveConflict σ cid t items sev md now).conflict.resolutionTier = 3 ∧
        (resolveConflict σ cid t items sev md now).tiersAttempted = [1, 2, 3] ∧
        (resolveConflict σ cid t items sev md now).state.coordination.conflictResolution.activeConflicts
          = σ.coordination.conflictResolution.activeConflicts
            ++ [(resolveConflict σ cid t items sev md now).conflict] ∧
        mapGet (resolveConflict σ cid t items sev md now).state.conflicts cid
          = some (resolveConflict σ cid t items sev md now).conflict)
    ∧ (∀ σ σ' : OState, Step σ σ' →
        σ'.coordination.conflictResolution.tier3.enabled
          = σ.coordination.conflictResolution.tier3.enabled)
    ∧ (∀ (oid : String) (now : Int),
        (initializeCoordination oid now).conflictResolution.tier3.enabled = true) := by
  refine ⟨?_, ?_, ?_⟩
  · intro σ cid t items sev md now h1 h2 h3
    unfold resolveConflict escalateToHuman
    simp only [h1, h2, h3, Bool.false_eq_true, Bool.not_true, if_false]
    exact ⟨trivial, trivial, trivial, trivial, mapGet_mapSet_self _ _ _⟩
  · intro σ σ' hstep
    rw [step_tier3 hstep]
  · intro oid now
    rfl

/-- C3 witness: a conflict resolved on a state whose tier-1 resolution is
disabled and which has no mediator agents escalates to tier 3 after
attempting tiers 1, 2, 3 in order and lands on the active-conflicts list. -/
theorem conflict_escalation_tier_order_witness :
    (resolveConflict exEscalationState "c1" ConflictType.memory_conflict ["m1", "m2"]
        Severity.high [] 100).conflict.status = ConflictStatus.escalated ∧
      (resolveConflict exEscalationState "c1" ConflictType.memory_conflict ["m1", "m2"]
        Severity.high [] 100).conflict.resolutionTier = 3 ∧
      (resolveConflict exEscalationState "c1" ConflictType.memory_conflict ["m1", "m2"]
        Severity.high [] 100).tiersAttempted = [1, 2, 3] ∧
      (resolveConflict exEscalationState "c1" ConflictType.memory_conflict ["m1", "m2"]
          Severity.high [] 100).state.coordination.conflictResolution.activeConflicts
        = exEscalationState.coordination.conflictResolution.activeConflicts
          ++ [(resolveConflict exEscalationState "c1" ConflictType.memory_conflict ["m1", "m2"]
            Severity.high [] 100).conflict] ∧
      mapGet (resolveConflict exEscalationState "c1" ConflictType.memory_conflict ["m1", "m2"]
          Severity.high [] 100).state.conflicts "c1"
        = some (resolveConflict exEscalationState "c1" ConflictType.memory_conflict ["m1", "m2"]
          Severity.high [] 100).conflict :=
  conflict_escalation_tier_order.1 exEscalationState "c1" ConflictType.memory_conflict
    ["m1", "m2"] Severity.high [] 100 rfl rfl rfl

/-- C4 counterexample: after `getSessionContext` with `includeHierarchy` on a
child whose stored state is `b ↦ 2` under a root with state `a ↦ 1`, the
child's state stored in the session map has become the merged map — the merge
is written back, contradicting the claim that stored state maps are
unchanged. -/
theorem hierarchy_merge_persisted_counterexample :
    Option.map SessionContext.state (mapGet exHierState.sessions "child") = some [("b", 2)] ∧
    Option.map SessionContext.state
      (mapGet (getSessionContext 2 exHierState "child" true 0).2.sessions "child")
      = some [("a", 1), ("b", 2)] := by
  exact ⟨rfl, by decide⟩

/-- C4 (amended): the hierarchy merge is persisted, not a read-time
projection: for a two-level chain (an unexpired child under an unexpired
parent-chain root), after `getSessionContext(child, includeHierarchy = true)`
the child's state stored in the session map equals the root-to-leaf merge of
the parent's and the child's states. -/
theorem hierarchy_merge_persisted_amended :
    ∀ (fuel : Nat) (σ : OState) (c pid : String) (now : Int) (C P : SessionContext),
      mapGet σ.sessions c = some C → C.parentSessionId = some pid →
      mapGet σ.sessions pid = some P → P.parentSessionId = none → pid ≠ c →
      ¬ (now - C.createdAt > C.ttl * 1000) → ¬ (now - P.createdAt > P.ttl * 1000) →
      Option.map SessionContext.state
        (mapGet (getSessionContext (fuel + 2) σ c true now).2.sessions c)
        = some (mergeStates P.state C.state) := by
  intro fuel σ c pid now C P hc hcp hP hPr hpc hexpC hexpP
  rw [getCtx_child fuel σ c pid now C P hc hcp hP hPr hpc hexpC hexpP]
  rw [mapGet_mapSet_self]
  rfl

/-- C4 witness: the amended statement applied at the concrete two-session
store with root state `a ↦ 1` and child state `b ↦ 2`. -/
theorem hierarchy_merge_persisted_witness :
    Option.map SessionContext.state
      (mapGet (getSessionContext 2 exHierState "child" true 0).2.sessions "child")
      = some (mergeStates [("a", 1)] [("b", 2)]) ∧
    mergeStates [("a", 1)] [("b", 2)] = [("a", 1), ("b", 2)] :=
  ⟨hierarchy_merge_persisted_amended 0 exHierState "child" "root" 0 exChildB2 exRootA1
      (by decide) rfl (by decide) rfl (by decide) (by decide) (by decide),
    by decide⟩

/-- C5: at the failing input (an existing pattern with `usageCount = 0`, a
match score above the threshold and a failing action execution), the code
leaves `usageCount` at 0 — it does not increment it as the claim requires —
returns `applied = false`, and drives `successRate` to NaN by dividing by the
un-incremented count. -/
theorem apply_pattern_failure_no_increment :
    (applyPattern exPatternState "pat" [] true 7).1 = false ∧
    Option.map LearnedPattern.usageCount
      (mapGet (applyPattern exPatternState "pat" [] true 7).2.patterns "pat") = some 0 ∧
    Option.map LearnedPattern.successRate
      (mapGet (applyPattern exPatternState "pat" [] true 7).2.patterns "pat")
      = some JSNum.nan := by
  have hm : ¬ (evaluatePatternMatch exFreshPattern.conditions [] < (0.7 : ℚ)) := by
    unfold evaluatePatternMatch
    norm_num
  unfold applyPattern
  rw [show mapGet exPatternState.patterns "pat" = some exFreshPattern from rfl]
  dsimp only
  rw [if_neg hm, if_pos (rfl : (true : Bool) = true)]
  rw [mapGet_mapSet_self]
  refine ⟨rfl, rfl, ?_⟩
  show some (JSNum.div (JSNum.add (JSNum.mul exFreshPattern.successRate
    (JSNum.num ((exFreshPattern.usageCount : ℚ) - 1))) (JSNum.num 0))
    (JSNum.num (exFreshPattern.usageCount : ℚ))) = some JSNum.nan
  norm_num [exFreshPattern, JSNum.mul, JSNum.add, JSNum.div]

/-- C6 counterexample: the expiry sweep counts a session that is already
inactive: on a store holding one expired, already-inactive session it returns
1, while the number of sessions transitioned from active to inactive in that
run is 0. -/
theorem cleanup_count_counterexample :
    exExpiredInactive.isActive = false ∧
    (cleanupExpiredSessions exExpiredState 2000).1 = 1 := by
  exact ⟨rfl, by decide⟩

/-- C6 (amended): on a store with unique session keys, the sweep sets
`isActive = false` on exactly the sessions with `now - createdAt > ttl·1000`
— whether or not they were already inactive — returns the number of such
expired sessions (already-inactive ones included), and removes no session
from the session map (the key list is unchanged). -/
theorem cleanup_sweep_amended :
    ∀ (σ : OState) (now : Int), sessionKeysNodup σ →
      (cleanupExpiredSessions σ now).1 = σ.sessions.countP (isExpiredEntry now) ∧
      (cleanupExpiredSessions σ now).2.sessions = σ.sessions.map (expireEntry now) ∧
      (cleanupExpiredSessions σ now).2.sessions.map Prod.fst = σ.sessions.map Prod.fst := by
  intro σ now h
  obtain ⟨h1, h2, _⟩ := cleanupExpiredSessions_char σ now h
  exact ⟨h1, h2, by rw [h2, expire_keys]⟩

/-- C6 witness: the amended statement applied to the store with one expired
already-inactive session; the count it characterizes evaluates to 1. -/
theorem cleanup_sweep_amended_witness :
    (cleanupExpiredSessions exExpiredState 2000).1
        = exExpiredState.sessions.countP (isExpiredEntry 2000) ∧
      exExpiredState.sessions.countP (isExpiredEntry 2000) = 1 ∧
      (cleanupExpiredSessions exExpiredState 2000).2.sessions.map Prod.fst
        = exExpiredState.sessions.map Prod.fst :=
  ⟨(cleanup_sweep_amended exExpiredState 2000 (by decide)).1, by decide,
    (cleanup_sweep_amended exExpiredState 2000 (by decide)).2.2⟩

/-- C7: (i) a session created with a `parentSessionId` referencing an
existing session is linked to it — its `hierarchyLevel` is the parent's plus
one and its id is appended to the parent's `childSessions`; (ii) the
relation `hierRelated` is preserved by every subsequent operation (on states
with unique session keys); (iii) every operation preserves key uniqueness. -/
theorem hierarchy_invariant :
    (∀ (σ : OState) (sid : String) (role : AgentRole) (opts : CreateOptions)
        (pid : String) (now : Int),
      mapGet σ.sessions sid = none → opts.parentSessionId = some pid →
      (mapGet σ.sessions pid).isSome = true →
      hierRelated (createSession σ sid role opts now).2 sid pid = true)
    ∧ (∀ (σ σ' : OState) (s p : String), Step σ σ' → sessionKeysNodup σ →
        hierRelated σ s p = true → hierRelated σ' s p = true)
    ∧ (∀ (σ σ' : OState), Step σ σ' → sessionKeysNodup σ → sessionKeysNodup σ') := by
  refine ⟨?_, ?_, ?_⟩
  · intro σ sid role opts pid now fresh hpo hsome
    obtain ⟨P, hP⟩ := Option.isSome_iff_exists.mp hsome
    have hne : sid ≠ pid := by
      intro e; subst e; rw [hP] at fresh; exact Option.noConfusion fresh
    unfold createSession hierRelated
    simp only [hpo, hP]
    rw [mapGet_mapSet_self, mapGet_mapSet_ne _ _ _ _ (Ne.symm hne), mapGet_mapSet_self]
    by_cases hz : P.hierarchyLevel = 0 <;> simp [jsOrInt, hz, List.mem_append]
  · intro σ σ' s p hstep hnd hr
    exact hierRelated_of_listPreserved (step_listPreserved hstep hnd) hr
  · intro σ σ' hstep hnd
    exact step_keysNodup hstep hnd

/-- C7 witness: creating a child `c` under the existing active parent `p`
establishes the hierarchy relation, and the relation still holds after a
further operation (an agent registration). -/
theorem hierarchy_invariant_witness :
    hierRelated (createSession exActiveParentState "c" AgentRole.specialist exOptsParentP 0).2
        "c" "p" = true ∧
      hierRelated (registerAgent
          (createSession exActiveParentState "c" AgentRole.specialist exOptsParentP 0).2
          "a1" AgentRole.coordinator [] 1).2 "c" "p" = true := by
  have h1 := hierarchy_invariant.1 exActiveParentState "c" AgentRole.specialist exOptsParentP
    "p" 0 (by decide) (by decide) (by decide)
  refine ⟨h1, hierarchy_invariant.2.1 _ _ "c" "p"
    (Step.register _ "a1" AgentRole.coordinator [] 1) (by decide) h1⟩

/-- C8: (i) looking up any key in the JS-spread merge of a parent and a child
state gives the child's value when present and the parent's value otherwise
(descendant wins on shared keys); (ii) for a two-level chain of unexpired
sessions, `getSessionContext` with `includeHierarchy = true` returns the
session with state equal to the root-to-leaf merge of the parent's and the
child's states. -/
theorem state_merge_determinism :
    (∀ (p c : List (String × Int)) (k : String),
      mapGet (mergeStates p c) k = (mapGet c k).or (mapGet p k))
    ∧ (∀ (fuel : Nat) (σ : OState) (cs pid : String) (now : Int) (C P : SessionContext),
      mapGet σ.sessions cs = some C → C.parentSessionId = some pid →
      mapGet σ.sessions pid = some P → P.parentSessionId = none → pid ≠ cs →
      ¬ (now - C.createdAt > C.ttl * 1000) → ¬ (now - P.createdAt > P.ttl * 1000) →
      Option.map SessionContext.state (getSessionContext (fuel + 2) σ cs true now).1
        = some (mergeStates P.state C.state)) := by
  constructor
  · intro p c k
    exact mapGet_mergeStates p c k
  · intro fuel σ cs pid now C P hc hcp hP hPr hpc hexpC hexpP
    rw [getCtx_child fuel σ cs pid now C P hc hcp hP hPr hpc hexpC hexpP]
    rfl

/-- C8 witness: root state `a ↦ 1` with child state `b ↦ 2` returns
`a ↦ 1, b ↦ 2`; root `a ↦ 1` with child `a ↦ 3` returns `a ↦ 3` (the child
overrides the shared key). -/
theorem state_merge_determinism_witness :
    Option.map SessionContext.state (getSessionContext 2 exHierState "child" true 0).1
        = some [("a", 1), ("b", 2)] ∧
      Option.map SessionContext.state (getSessionContext 2 exHierState2 "child" true 0).1
        = some [("a", 3)] := by
  constructor
  · rw [state_merge_determinism.2 0 exHierState "child" "root" 0 exChildB2 exRootA1
      (by decide) rfl (by decide) rfl (by decide) (by decide) (by decide)]
    decide
  · rw [state_merge_determinism.2 0 exHierState2 "child" "root" 0 exChildA3 exRootA1
      (by decide) rfl (by decide) rfl (by decide) (by decide) (by decide)]
    decide

/-- C9: once a session is stored with `isActive = false`, no operation ever
returns it to `true` — every step of the orchestrator preserves inactivity
(on states with unique session keys), and every step preserves key
uniqueness, so the property propagates along any sequence of operations. -/
theorem ttl_monotonicity :
    (∀ (σ σ' : OState) (sid : String), Step σ σ' → sessionKeysNodup σ →
      sessionInactive σ sid = true → sessionInactive σ' sid = true)
    ∧ (∀ (σ σ' : OState), Step σ σ' → sessionKeysNodup σ → sessionKeysNodup σ') := by
  constructor
  · intro σ σ' sid hstep hnd hi
    exact sessionInactive_of_listPreserved (step_listPreserved hstep hnd) hi
  · intro σ σ' hstep hnd
    exact step_keysNodup hstep hnd

/-- C9 witness: the inactive session `s` stays inactive across a subsequent
operation (an agent registration step), and key uniqueness is preserved. -/
theorem ttl_monotonicity_witness :
    sessionInactive (registerAgent exInactiveState "a1" AgentRole.coordinator [] 5).2 "s"
        = true ∧
      sessionKeysNodup (registerAgent exInactiveState "a1" AgentRole.coordinator [] 5).2 :=
  ⟨ttl_monotonicity.1 exInactiveState _ "s"
      (Step.register exInactiveState "a1" AgentRole.coordinator [] 5) (by decide) (by decide),
    ttl_monotonicity.2 exInactiveState _
      (Step.register exInactiveState "a1" AgentRole.coordinator [] 5) (by decide)⟩

/-- C10: applying an existing pattern with `usageCount = 0` (and the fresh
pattern's `successRate = 0`) whose match score meets the threshold, with a
failing action execution, drives `successRate` to NaN — the failure branch
divides by the un-incremented, zero usage count — so the stored rate leaves
the unit interval. -/
theorem apply_pattern_zero_usage_nan :
    ∀ (σ : OState) (pid : String) (ctx : List (String × Int)) (now : Int)
      (p : LearnedPattern),
      mapGet σ.patterns pid = some p → p.usageCount = 0 → p.successRate = JSNum.num 0 →
      ¬ (evaluatePatternMatch p.conditions ctx < (0.7 : ℚ)) →
      Option.map LearnedPattern.successRate
          (mapGet (applyPattern σ pid ctx true now).2.patterns pid) = some JSNum.nan ∧
        Option.map JSNum.inUnitRange
          (Option.map LearnedPattern.successRate
            (mapGet (applyPattern σ pid ctx true now).2.patterns pid)) = some false := by
  intro σ pid ctx now p hp hcount hrate hmatch
  unfold applyPattern
  rw [hp]
  dsimp only
  rw [if_neg hmatch, if_pos (rfl : (true : Bool) = true)]
  have hval : JSNum.div (JSNum.add (JSNum.mul p.successRate
      (JSNum.num ((p.usageCount : ℚ) - 1))) (JSNum.num 0))
      (JSNum.num (p.usageCount : ℚ)) = JSNum.nan := by
    rw [hcount, hrate]
    norm_num [JSNum.mul, JSNum.add, JSNum.div]
  rw [mapGet_mapSet_self]
  refine ⟨?_, ?_⟩
  · simp only [Option.map_some']
    rw [hval]
  · simp only [Option.map_some']
    rw [hval]
    rfl

/-- C10 witness: the statement applied to the concrete store holding the
freshly learned pattern `pat` with `usageCount = 0`. -/
theorem apply_pattern_zero_usage_nan_witness :
    Option.map LearnedPattern.successRate
        (mapGet (applyPattern exPatternState "pat" [] true 7).2.patterns "pat")
        = some JSNum.nan ∧
      Option.map JSNum.inUnitRange
        (Option.map LearnedPattern.successRate
          (mapGet (applyPattern exPatternState "pat" [] true 7).2.patterns "pat"))
        = some false :=
  apply_pattern_zero_usage_nan exPatternState "pat" [] 7 exFreshPattern rfl rfl rfl
    (by norm_num [evaluatePatternMatch])

end VPSOrch
